import Mathlib

/-!
Verification of the clinical risk-scoring engine:
shallow embedding of `ML_models/Patient_risk_classification/inference.py`,
`backend/src/utils/error_handling.py` and
`backend/src/services/risk_assessment_service.py`, with theorems settling
the spec's testable properties. Floats are modelled as exact rationals.
-/

namespace RiskSpec

/-- Round-half-even of a rational to an integer, modelling Python's `round`
applied to the exact decimal values that occur in this code base. -/
def roundHalfEven (x : ℚ) : ℤ :=
  let n := Int.floor x
  let r := x - n
  if r < 1/2 then n
  else if 1/2 < r then n + 1
  else if n % 2 = 0 then n else n + 1

/-- Models Python `round(x, d)`: round-half-even at `d` decimal digits. -/
def pyRound (x : ℚ) (d : ℕ) : ℚ :=
  (roundHalfEven (x * 10 ^ d) : ℚ) / 10 ^ d

namespace Inference

/-- The ordered internal risk levels `['LOW','MODERATE','HIGH','CRITICAL']`
of `inference.py`. -/
inductive RiskCategory where
  | LOW
  | MODERATE
  | HIGH
  | CRITICAL
deriving DecidableEq, Repr

/-- `levels.index(c)` for the list `['LOW','MODERATE','HIGH','CRITICAL']`. -/
def catIdx : RiskCategory → ℕ
  | .LOW => 0
  | .MODERATE => 1
  | .HIGH => 2
  | .CRITICAL => 3

/-- `levels[i]` for the same list (total: indices ≥ 3 give CRITICAL, and the
code only ever indexes with `min idx 3`). -/
def catOfIdx : ℕ → RiskCategory
  | 0 => .LOW
  | 1 => .MODERATE
  | 2 => .HIGH
  | _ => .CRITICAL

/-- `ml_risk_band(probability)` from `inference.py`. -/
def ml_risk_band (probability : ℚ) : RiskCategory :=
  if probability < 0.45 then .LOW
  else if probability < 0.65 then .MODERATE
  else if probability < 0.85 then .HIGH
  else .CRITICAL

/-- `escalate_risk(base_category, clinical_adjustment)` from `inference.py`. -/
def escalate_risk (base_category : RiskCategory) (clinical_adjustment : ℚ) :
    RiskCategory :=
  let idx := catIdx base_category
  let idx2 :=
    if 40 ≤ clinical_adjustment then idx + 2
    else if 20 ≤ clinical_adjustment then idx + 1
    else idx
  catOfIdx (min idx2 3)

/-- `collapse_to_three_levels(final_category)` from `inference.py`. -/
def collapse_to_three_levels (final_category : RiskCategory) : RiskCategory :=
  match final_category with
  | .HIGH => .HIGH
  | .CRITICAL => .HIGH
  | .MODERATE => .MODERATE
  | .LOW => .LOW

/-- The `patient` dict fields read by `calculate_risk_score`. -/
structure Patient where
  heartrate : ℚ
  sbp : ℚ
  dbp : ℚ
  resprate : ℚ
  o2sat : ℚ
  temperature : ℚ
  acuity : ℤ
  arrival_ambulance : ℤ
deriving DecidableEq, Repr

/-- The `clinical_adjustment` accumulated by `calculate_risk_score`
(one addend per rule, in the code's evaluation order). -/
def clinical_adjustment (patient : Patient) : ℚ :=
  (if patient.o2sat < 88 then 20 else if patient.o2sat < 92 then 10 else 0)
  + (if patient.sbp < 90 then 15 else 0)
  + (if patient.resprate > 24 then 10 else 0)
  + (if patient.heartrate > 120 then 10
     else if patient.heartrate < 40 then 10 else 0)
  + (if patient.acuity ≥ 4 then 15
     else if patient.acuity ≥ 3 then 10
     else if patient.acuity ≥ 2 then 5 else 0)
  + (if patient.arrival_ambulance = 1 then 5 else 0)

/-- The `reasons` list accumulated by `calculate_risk_score`, in the same
rule order as `clinical_adjustment`. -/
def contributing_factors (patient : Patient) : List String :=
  (if patient.o2sat < 88 then ["Critical hypoxemia (SpO₂ < 88%)"]
   else if patient.o2sat < 92 then ["Low oxygen saturation"] else [])
  ++ (if patient.sbp < 90 then ["Hypotension (SBP < 90)"] else [])
  ++ (if patient.resprate > 24 then ["Tachypnea (RR > 24)"] else [])
  ++ (if patient.heartrate > 120 then ["Tachycardia (HR > 120)"]
      else if patient.heartrate < 40 then ["Bradycardia (HR < 50)"] else [])
  ++ (if patient.acuity ≥ 4 then ["Critical acuity (Level 4)"]
      else if patient.acuity ≥ 3 then ["High acuity (Level 3)"]
      else if patient.acuity ≥ 2 then ["Moderate acuity (Level 2)"] else [])
  ++ (if patient.arrival_ambulance = 1 then ["Arrived by ambulance"] else [])

/-- The dict returned by `calculate_risk_score`. -/
structure RiskResult where
  risk_score : ℚ
  risk_category : RiskCategory
  ml_probability : ℚ
  ml_score : ℚ
  clinical_adjustment : ℚ
  contributing_factors : List String
deriving DecidableEq, Repr

/-- `calculate_risk_score(probability, patient)` from `inference.py`:
`ml_score = probability*100`, base band from `ml_risk_band`, escalation via
`escalate_risk`, `final_score = min(ml_score + clinical_adjustment, 100)`,
with the code's 1- and 3-digit roundings on the reported fields. -/
def calculate_risk_score (probability : ℚ) (patient : Patient) : RiskResult :=
  let ml_score := probability * 100
  let adj := clinical_adjustment patient
  let base_category := ml_risk_band probability
  let final_category := escalate_risk base_category adj
  let final_score := min (ml_score + adj) 100
  { risk_score := pyRound final_score 1
    risk_category := final_category
    ml_probability := pyRound probability 3
    ml_score := pyRound ml_score 1
    clinical_adjustment := pyRound adj 1
    contributing_factors := contributing_factors patient }

/-- The end-to-end scenario patient of the spec: heart_rate 130,
systolic 85, diastolic 60, respiratory rate 26, oxygen saturation 86,
temperature 37, acuity 4, arrived by ambulance. -/
def scenarioPatient : Patient :=
  { heartrate := 130, sbp := 85, dbp := 60, resprate := 26, o2sat := 86,
    temperature := 37, acuity := 4, arrival_ambulance := 1 }

end Inference

namespace ErrH

/-- The `ErrorCategory` enum of `error_handling.py`. -/
inductive ErrorCategory where
  | validation
  | database
  | external_service
  | authentication
  | authorization
  | business_logic
  | system
  | network
  | timeoutCat
deriving DecidableEq, Repr

/-- One entry of `ErrorHandler.circuit_breakers`:
`{"opened_at": ..., "error_count": ...}`. Time is a rational number of
seconds (the code subtracts `datetime` values and takes `total_seconds`). -/
structure Breaker where
  opened_at : ℚ
  error_count : ℕ
deriving DecidableEq, Repr

/-- The mutable state of an `ErrorHandler`: the per-key error counter dict
(read with `.get(key, 0)`) and the circuit-breaker dict (absence of a key
means the breaker is closed). -/
structure HandlerState where
  error_count : String → ℕ
  circuit_breakers : String → Option Breaker

/-- The freshly constructed `ErrorHandler()` state: both dicts empty. -/
def initState : HandlerState :=
  { error_count := fun _ => 0, circuit_breakers := fun _ => none }

/-- `ErrorHandler._check_circuit_breaker(category, error_key)`: for
external-service errors with a count of at least 5 and no breaker entry yet,
record an open breaker stamped with the current time and count. -/
def check_circuit_breaker (s : HandlerState) (category : ErrorCategory)
    (error_key : String) (now : ℚ) : HandlerState :=
  if category = ErrorCategory.external_service
      ∧ 5 ≤ s.error_count error_key
      ∧ s.circuit_breakers error_key = none then
    { s with circuit_breakers := fun k =>
        if k = error_key then some ⟨now, s.error_count error_key⟩
        else s.circuit_breakers k }
  else s

/-- The state effect of `ErrorHandler.handle_error`: increment
`error_count[error_key]` and run `_check_circuit_breaker`. Logging and the
returned `SystemError` value carry no state and are not modelled. -/
def handle_error (s : HandlerState) (category : ErrorCategory)
    (error_key : String) (now : ℚ) : HandlerState :=
  check_circuit_breaker
    { s with error_count := fun k =>
        if k = error_key then s.error_count error_key + 1
        else s.error_count k }
    category error_key now

/-- `ErrorHandler.is_circuit_open(service_key)`: closed if no entry; if the
entry is older than 300 seconds, delete it and report closed; otherwise
report open. Returns the flag and the (possibly updated) state. -/
def is_circuit_open (s : HandlerState) (service_key : String) (now : ℚ) :
    Bool × HandlerState :=
  match s.circuit_breakers service_key with
  | none => (false, s)
  | some breaker =>
    if 300 < now - breaker.opened_at then
      (false, { s with circuit_breakers := fun k =>
          if k = service_key then none else s.circuit_breakers k })
    else (true, s)

/-- How a call wrapped by `monitor_external_service` can fail: the upfront
circuit-breaker exception, the re-raised last exception of the retry loop
(identified by the exception's type name, which is what feeds the error
key), or the degenerate `retry_attempts = 0` case where Python would raise
the unbound `last_exception`. -/
inductive MonError where
  | circuitOpen
  | raised (excName : String)
  | noAttempt
deriving DecidableEq, Repr

/-- Observable outcome of one wrapped call: its result, the backoff sleeps
performed between attempts (in order), how many times the wrapped function
was invoked, and the handler state afterwards. -/
structure MonitorOutcome (A : Type) where
  result : Except MonError A
  sleeps : List ℚ
  calls : ℕ
  finalState : HandlerState

/-- The `for attempt in range(retry_attempts)` loop of
`monitor_external_service`. The wrapped function is modelled as a map from
the attempt index to its outcome, an exception being represented by its
type name. `fuel` is the number of attempts remaining. On a failure that is
not the last attempt the loop records the failure, sleeps
`backoff_factor ** attempt`, and retries; on the last attempt it records
the failure and re-raises. -/
def monitorLoop (backoff_factor : ℚ) (fn : ℕ → Except String A) (now : ℚ) :
    (fuel : ℕ) → (attempt : ℕ) → HandlerState → MonitorOutcome A
  | 0, _, s => ⟨.error .noAttempt, [], 0, s⟩
  | fuel + 1, attempt, s =>
    match fn attempt with
    | .ok a => ⟨.ok a, [], 1, s⟩
    | .error excName =>
      let s1 := handle_error s ErrorCategory.external_service
        ("external_service_" ++ excName) now
      if fuel = 0 then ⟨.error (.raised excName), [], 1, s1⟩
      else
        let rest := monitorLoop backoff_factor fn now fuel (attempt + 1) s1
        ⟨rest.result, backoff_factor ^ attempt :: rest.sleeps,
          rest.calls + 1, rest.finalState⟩

/-- The wrapper produced by
`monitor_external_service(service_name, ..., retry_attempts, backoff_factor)`
acting on the global handler state: if the circuit for
`"external_service_" + service_name` is open, raise immediately without
invoking the function; otherwise run the retry loop. -/
def monitorRun (service_name : String) (retry_attempts : ℕ)
    (backoff_factor : ℚ) (fn : ℕ → Except String A) (s : HandlerState)
    (now : ℚ) : MonitorOutcome A :=
  let circuit_key := "external_service_" ++ service_name
  let co := is_circuit_open s circuit_key now
  if co.1 then ⟨.error .circuitOpen, [], 0, co.2⟩
  else monitorLoop backoff_factor fn now retry_attempts 0 co.2

/-- A handler state in which four failures have already been recorded
against the key `"external_service_TimeoutError"` and no breaker is open. -/
def fourFailuresState : HandlerState :=
  { error_count := fun k =>
      if k = "external_service_TimeoutError" then 4 else 0,
    circuit_breakers := fun _ => none }

end ErrH

namespace Service

/-- A handler state whose circuit breaker for the risk-assessment service
key `"external_service_ml_risk_model"` opened at time 0 after 5 errors. -/
def openState : ErrH.HandlerState :=
  { error_count := fun _ => 5,
    circuit_breakers := fun k =>
      if k = "external_service_ml_risk_model" then some ⟨0, 5⟩ else none }

/-- The vital-sign fields of a `VitalSigns` record that
`risk_assessment_service.py` reads. -/
structure VitalSigns where
  heart_rate : ℚ
  systolic_bp : ℚ
  diastolic_bp : ℚ
  respiratory_rate : ℚ
  oxygen_saturation : ℚ
  temperature : ℚ
deriving DecidableEq, Repr

/-- The patient fields the service reads: `patient.arrival_mode.value` is a
string (the DB enum's value) and `patient.acuity_level` an integer. -/
structure Patient where
  arrival_mode : String
  acuity_level : ℤ
deriving DecidableEq, Repr

/-- One element of the `errors` list built by `validate_model_inputs`, in
the order the checks appear in the code. The Python messages are f-strings
embedding the offending value; only the identity of the failed check is
modelled. -/
inductive ValidationIssue where
  | heartRateRange
  | systolicBpRange
  | diastolicBpRange
  | respiratoryRateRange
  | oxygenSaturationRange
  | temperatureRange
  | bpRelationship
  | arrivalModeInvalid
  | acuityLevelRange
deriving DecidableEq, Repr

/-- The `errors` list of
`RiskAssessmentService.validate_model_inputs`, appended in code order
(the `warnings` list is log-only and not modelled). The call is valid iff
this list is empty. -/
def validate_model_inputs (heart_rate systolic_bp diastolic_bp
    respiratory_rate oxygen_saturation temperature : ℚ)
    (arrival_mode : String) (acuity_level : ℤ) : List ValidationIssue :=
  (if ¬(30 ≤ heart_rate ∧ heart_rate ≤ 200) then [.heartRateRange] else [])
  ++ (if ¬(50 ≤ systolic_bp ∧ systolic_bp ≤ 300) then [.systolicBpRange]
      else [])
  ++ (if ¬(20 ≤ diastolic_bp ∧ diastolic_bp ≤ 200) then [.diastolicBpRange]
      else [])
  ++ (if ¬(5 ≤ respiratory_rate ∧ respiratory_rate ≤ 60) then
        [.respiratoryRateRange] else [])
  ++ (if ¬(50 ≤ oxygen_saturation ∧ oxygen_saturation ≤ 100) then
        [.oxygenSaturationRange] else [])
  ++ (if ¬(30 ≤ temperature ∧ temperature ≤ 45) then [.temperatureRange]
      else [])
  ++ (if diastolic_bp ≥ systolic_bp then [.bpRelationship] else [])
  ++ (if arrival_mode ≠ "Ambulance" ∧ arrival_mode ≠ "Walk-in" then
        [.arrivalModeInvalid] else [])
  ++ (if ¬(1 ≤ acuity_level ∧ acuity_level ≤ 5) then [.acuityLevelRange]
      else [])

/-- `validate_model_inputs` applied to the fields `prepare_model_input`
extracts from the patient and vital-signs records. -/
def validate_input (patient : Patient) (vital_signs : VitalSigns) :
    List ValidationIssue :=
  validate_model_inputs vital_signs.heart_rate vital_signs.systolic_bp
    vital_signs.diastolic_bp vital_signs.respiratory_rate
    vital_signs.oxygen_saturation vital_signs.temperature
    patient.arrival_mode patient.acuity_level

/-- `RiskAssessmentService._fallback_risk_assessment(patient, vital_signs)`:
acuity base score (`.get` default 50), additive vital-sign and arrival-mode
weights, clamp to [0,100], and the risk flag. Pure in its inputs. -/
def fallback_risk_assessment (patient : Patient)
    (vital_signs : VitalSigns) : ℚ × Bool :=
  let acuity_risk : ℚ :=
    if patient.acuity_level = 1 then 10
    else if patient.acuity_level = 2 then 20
    else if patient.acuity_level = 3 then 40
    else if patient.acuity_level = 4 then 60
    else if patient.acuity_level = 5 then 80
    else 50
  let risk_score := acuity_risk
    + (if vital_signs.heart_rate > 100 ∨ vital_signs.heart_rate < 60
       then 10 else 0)
    + (if vital_signs.systolic_bp > 140 ∨ vital_signs.systolic_bp < 90
       then 10 else 0)
    + (if vital_signs.oxygen_saturation < 95 then 20 else 0)
    + (if vital_signs.temperature > 38 ∨ vital_signs.temperature < 36
       then 10 else 0)
    + (if vital_signs.respiratory_rate > 20 ∨ vital_signs.respiratory_rate < 12
       then 10 else 0)
    + (if patient.arrival_mode = "Ambulance" then 10 else 0)
  let clamped := min 100 (max 0 risk_score)
  let risk_flag := clamped > 50 ∨ patient.acuity_level ≥ 4
  (clamped, risk_flag)

/-- The exception classes `_perform_risk_assessment` distinguishes with its
`except` clauses, in dispatch order. `mlValidation` is what
`prepare_model_input` raises on input-validation failure; the others come
out of the ML client call; `unexpected` is the final `except Exception`. -/
inductive MLExcKind where
  | patientRiskML
  | modelPrediction
  | mlTimeout
  | mlValidation
  | mlResponse
  | mlError
  | unexpected
deriving DecidableEq, Repr

/-- What one call to `self.ml_client.predict_risk` does: return
`(risk_score, risk_category, processing_time_ms)` or raise. -/
def MLOutcome := Except MLExcKind (ℚ × String × ℕ)

/-- The fields of the `RiskAssessment` record that
`_perform_risk_assessment` passes to `risk_repo.create` and that the claims
inspect. `error_message` is modelled by the kind of the caught exception
(the Python string is a fixed prefix for that kind plus `str(e)`); `None`
means the model path succeeded. -/
structure RiskAssessmentRec where
  risk_score : ℚ
  risk_category : String
  risk_flag : Bool
  processing_time_ms : ℕ
  error_message : Option MLExcKind
deriving DecidableEq, Repr

/-- The `risk_category` each fallback `except` branch derives:
`"HIGH" if risk_flag else ("MODERATE" if risk_score > 50 else "LOW")`. -/
def category_from_flag (risk_score : ℚ) (risk_flag : Bool) : String :=
  if risk_flag then "HIGH"
  else if risk_score > 50 then "MODERATE" else "LOW"

/-- The body of `RiskAssessmentService._perform_risk_assessment` (inside
the `monitor_external_service` decorator): validate the model input
(an invalid input raises `MLModelValidationError`, caught below like every
other model exception), call the ML client (the `predict_risk` branch for
the Patient-Risk client), derive `risk_flag = (category == "HIGH")` on
success, fall back to `_fallback_risk_assessment` on any caught exception,
then store via `risk_repo.create` — a store failure raises
`RiskAssessmentServiceError` out of the body. `ml` is the ML client call's
behaviour and `dbOk` whether the store succeeds. -/
def perform_risk_assessment_body (patient : Patient)
    (vital_signs : VitalSigns) (ml : MLOutcome) (dbOk : Bool) :
    Except String RiskAssessmentRec :=
  let issues := validate_input patient vital_signs
  let caught : Option MLExcKind :=
    if issues.isEmpty then
      match ml with
      | .ok _ => none
      | .error k => some k
    else some MLExcKind.mlValidation
  let rec0 : RiskAssessmentRec :=
    match caught with
    | none =>
      match ml with
      | .ok (score, category, t) =>
        ⟨score, category, category == "HIGH", t, none⟩
      | .error k =>
        let fb := fallback_risk_assessment patient vital_signs
        ⟨fb.1, category_from_flag fb.1 fb.2, fb.2, 0, some k⟩
    | some k =>
      let fb := fallback_risk_assessment patient vital_signs
      ⟨fb.1, category_from_flag fb.1 fb.2, fb.2, 0, some k⟩
  if dbOk then .ok rec0 else .error "RiskAssessmentServiceError"

/-- A full call of the decorated `_perform_risk_assessment`:
`monitor_external_service("ml_risk_model", timeout_seconds=5.0,
retry_attempts=2)` (backoff factor at its default 1.5) wrapped around the
body, against handler state `s` at time `now`. A `.error` result propagates
to the caller through `assess_risk_for_patient` /
`assess_risk_for_vital_signs` (whose decorators log and re-raise). -/
def perform_risk_assessment_call (s : ErrH.HandlerState) (now : ℚ)
    (patient : Patient) (vital_signs : VitalSigns) (ml : MLOutcome)
    (dbOk : Bool) : ErrH.MonitorOutcome RiskAssessmentRec :=
  ErrH.monitorRun "ml_risk_model" 2 (3/2)
    (fun _ => perform_risk_assessment_body patient vital_signs ml dbOk)
    s now

end Service

/-- `roundHalfEven` never rounds below the floor. -/
theorem roundHalfEven_cases (x : ℚ) :
    roundHalfEven x = Int.floor x
    ∨ (roundHalfEven x = Int.floor x + 1 ∧ 1/2 ≤ x - Int.floor x) := by
  simp only [roundHalfEven]
  split_ifs with h1 h2 h3
  · exact Or.inl rfl
  · exact Or.inr ⟨rfl, by linarith⟩
  · exact Or.inl rfl
  · exact Or.inr ⟨rfl, by linarith⟩

/-- Rounding a non-negative rational is non-negative. -/
theorem roundHalfEven_nonneg {x : ℚ} (h : 0 ≤ x) : 0 ≤ roundHalfEven x := by
  have h0 : 0 ≤ Int.floor x := Int.floor_nonneg.mpr h
  rcases roundHalfEven_cases x with hc | ⟨hc, _⟩ <;> omega

/-- Rounding cannot exceed an integer upper bound of the argument. -/
theorem roundHalfEven_le {x : ℚ} {B : ℤ} (h : x ≤ B) :
    roundHalfEven x ≤ B := by
  have hfl : Int.floor x ≤ B := by
    have h2 := Int.floor_le_floor (α := ℚ) h
    simpa using h2
  rcases roundHalfEven_cases x with hc | ⟨hc, hhalf⟩
  · omega
  · have hle : (Int.floor x : ℚ) ≤ x := Int.floor_le x
    have hlt : (Int.floor x : ℚ) < (B : ℚ) := by linarith
    have : Int.floor x < B := by exact_mod_cast hlt
    omega

/-- Python `round(x, 1)` keeps a value of [0,100] inside [0,100]. -/
theorem pyRound_one_bounds {x : ℚ} (h0 : 0 ≤ x) (h1 : x ≤ 100) :
    0 ≤ pyRound x 1 ∧ pyRound x 1 ≤ 100 := by
  have ha : (0 : ℚ) ≤ x * 10 ^ 1 := by positivity
  have hb : x * 10 ^ 1 ≤ ((1000 : ℤ) : ℚ) := by push_cast; linarith
  have hge := roundHalfEven_nonneg ha
  have hle := roundHalfEven_le hb
  unfold pyRound
  constructor
  · have : (0 : ℚ) ≤ (roundHalfEven (x * 10 ^ 1) : ℚ) := by exact_mod_cast hge
    positivity
  · have hc : (roundHalfEven (x * 10 ^ 1) : ℚ) ≤ 1000 := by exact_mod_cast hle
    rw [div_le_iff₀ (by positivity)]
    have h10 : (100 : ℚ) * 10 ^ 1 = 1000 := by norm_num
    rw [h10]
    exact hc

namespace Inference

/-- C4: for every base category and every non-negative clinical adjustment,
`escalate_risk` raises the category index by 2 when the adjustment is ≥ 40,
by 1 when it is ≥ 20 (and below 40), and otherwise leaves it unchanged,
clamping at CRITICAL (index 3); the result is never below the base
category in the order LOW < MODERATE < HIGH < CRITICAL. -/
theorem escalate_risk_spec (base : RiskCategory) (adj : ℚ) (h : 0 ≤ adj) :
    catIdx (escalate_risk base adj)
      = min (catIdx base + (if 40 ≤ adj then 2 else if 20 ≤ adj then 1 else 0)) 3
    ∧ catIdx base ≤ catIdx (escalate_risk base adj) := by
  cases base <;> simp only [escalate_risk, catIdx] <;>
    split_ifs <;> simp [catOfIdx]

/-- Witness for C4: the spec's concrete instance, base MODERATE with
adjustment 45 escalates two levels to CRITICAL. -/
theorem escalate_risk_spec_witness :
    (0 : ℚ) ≤ 45
    ∧ (catIdx (escalate_risk .MODERATE 45)
        = min (catIdx .MODERATE
            + (if (40 : ℚ) ≤ 45 then 2 else if (20 : ℚ) ≤ 45 then 1 else 0)) 3
      ∧ catIdx .MODERATE ≤ catIdx (escalate_risk .MODERATE 45)) :=
  ⟨by norm_num, escalate_risk_spec .MODERATE 45 (by norm_num)⟩

/-- C5: for probabilities in [0,1], `ml_risk_band` realises the bands
LOW below 0.45, MODERATE in [0.45,0.65), HIGH in [0.65,0.85), CRITICAL
from 0.85 up, and is non-decreasing in the probability. -/
theorem ml_risk_band_spec (p q : ℚ) (hp0 : 0 ≤ p) (hp1 : p ≤ 1)
    (hq0 : 0 ≤ q) (hq1 : q ≤ 1) (hpq : p ≤ q) :
    ((p < 0.45 → ml_risk_band p = .LOW)
      ∧ (0.45 ≤ p → p < 0.65 → ml_risk_band p = .MODERATE)
      ∧ (0.65 ≤ p → p < 0.85 → ml_risk_band p = .HIGH)
      ∧ (0.85 ≤ p → ml_risk_band p = .CRITICAL))
    ∧ catIdx (ml_risk_band p) ≤ catIdx (ml_risk_band q) := by
  constructor
  · refine ⟨fun h1 => ?_, fun h1 h2 => ?_, fun h1 h2 => ?_, fun h1 => ?_⟩ <;>
      · simp only [ml_risk_band]
        split_ifs <;> first | rfl | linarith
  · simp only [ml_risk_band]
    split_ifs <;> simp [catIdx] <;> linarith

/-- Witness for C5 at the endpoints p = 0, q = 1. -/
theorem ml_risk_band_spec_witness :
    ((0 : ℚ) ≤ 0 ∧ (0 : ℚ) ≤ 1 ∧ (0 : ℚ) ≤ 1 ∧ (1 : ℚ) ≤ 1 ∧ (0 : ℚ) ≤ 1)
    ∧ ((((0 : ℚ) < 0.45 → ml_risk_band 0 = .LOW)
        ∧ ((0.45 : ℚ) ≤ 0 → (0 : ℚ) < 0.65 → ml_risk_band 0 = .MODERATE)
        ∧ ((0.65 : ℚ) ≤ 0 → (0 : ℚ) < 0.85 → ml_risk_band 0 = .HIGH)
        ∧ ((0.85 : ℚ) ≤ 0 → ml_risk_band 0 = .CRITICAL))
      ∧ catIdx (ml_risk_band 0) ≤ catIdx (ml_risk_band 1)) :=
  ⟨by norm_num,
    ml_risk_band_spec 0 1 (by norm_num) (by norm_num) (by norm_num)
      (by norm_num) (by norm_num)⟩

/-- C7: the end-to-end scenario. With probability 0.6 and the scenario
patient, the base band is MODERATE, the rule engine reports ml_score 60,
clinical adjustment 75 with the six contributing factors in evaluation
order (hypoxemia, hypotension, tachypnea, tachycardia, acuity, ambulance),
the final score clamps to 100, the internal category escalates to CRITICAL,
and the external triage category collapses to HIGH. -/
theorem end_to_end_scenario :
    ml_risk_band 0.6 = .MODERATE
    ∧ calculate_risk_score 0.6 scenarioPatient =
      { risk_score := 100, risk_category := .CRITICAL, ml_probability := 0.6,
        ml_score := 60, clinical_adjustment := 75,
        contributing_factors :=
          ["Critical hypoxemia (SpO₂ < 88%)", "Hypotension (SBP < 90)",
           "Tachypnea (RR > 24)", "Tachycardia (HR > 120)",
           "Critical acuity (Level 4)", "Arrived by ambulance"] }
    ∧ collapse_to_three_levels
        (calculate_risk_score 0.6 scenarioPatient).risk_category = .HIGH := by
  norm_num [calculate_risk_score, scenarioPatient, clinical_adjustment,
    contributing_factors, ml_risk_band, escalate_risk, catIdx, catOfIdx,
    pyRound, roundHalfEven, collapse_to_three_levels, min_def]

/-- The clinical adjustment is a sum of non-negative rule weights. -/
theorem clinical_adjustment_nonneg (patient : Patient) :
    0 ≤ clinical_adjustment patient := by
  unfold clinical_adjustment
  repeat' apply add_nonneg
  all_goals split_ifs <;> norm_num

/-- C6: for every probability p in [0,1] and every patient, the rule
engine's final score is `min(p*100 + clinical_adjustment, 100)` (the
reported `risk_score` field being its 1-decimal rounding), and both lie in
[0,100] even when the raw sum exceeds 100. -/
theorem final_score_spec (p : ℚ) (patient : Patient)
    (h0 : 0 ≤ p) (h1 : p ≤ 1) :
    (calculate_risk_score p patient).risk_score
      = pyRound (min (p * 100 + clinical_adjustment patient) 100) 1
    ∧ 0 ≤ min (p * 100 + clinical_adjustment patient) 100
    ∧ min (p * 100 + clinical_adjustment patient) 100 ≤ 100
    ∧ 0 ≤ (calculate_risk_score p patient).risk_score
    ∧ (calculate_risk_score p patient).risk_score ≤ 100 := by
  have hadj := clinical_adjustment_nonneg patient
  have hmin0 : 0 ≤ min (p * 100 + clinical_adjustment patient) 100 :=
    le_min (by nlinarith) (by norm_num)
  have hmin1 : min (p * 100 + clinical_adjustment patient) 100 ≤ 100 :=
    min_le_right _ _
  have hrs : (calculate_risk_score p patient).risk_score
      = pyRound (min (p * 100 + clinical_adjustment patient) 100) 1 := rfl
  have hb := pyRound_one_bounds hmin0 hmin1
  exact ⟨hrs, hmin0, hmin1, by rw [hrs]; exact hb.1, by rw [hrs]; exact hb.2⟩

/-- Witness for C6 at the spec's instance p = 0.9 with the scenario
patient (raw sum 90 + 75 = 165, clamped to 100). -/
theorem final_score_spec_witness :
    ((0 : ℚ) ≤ 0.9 ∧ (0.9 : ℚ) ≤ 1)
    ∧ ((calculate_risk_score 0.9 scenarioPatient).risk_score
        = pyRound (min (0.9 * 100 + clinical_adjustment scenarioPatient) 100) 1
      ∧ 0 ≤ min (0.9 * 100 + clinical_adjustment scenarioPatient) 100
      ∧ min (0.9 * 100 + clinical_adjustment scenarioPatient) 100 ≤ 100
      ∧ 0 ≤ (calculate_risk_score 0.9 scenarioPatient).risk_score
      ∧ (calculate_risk_score 0.9 scenarioPatient).risk_score ≤ 100) :=
  ⟨⟨by norm_num, by norm_num⟩,
    final_score_spec 0.9 scenarioPatient (by norm_num) (by norm_num)⟩

end Inference

namespace Service

/-- C8: for acuity levels 1–5, the fallback scorer returns the acuity base
score (10/20/40/60/80) plus 10 for each of heart rate outside [60,100],
systolic BP outside [90,140], temperature outside [36,38] and respiratory
rate outside [12,20], plus 20 if oxygen saturation < 95 and 10 for an
ambulance arrival, clamped to [0,100]; the flag is `score > 50 or
acuity ≥ 4`; and it is deterministic in its two inputs. -/
theorem fallback_risk_assessment_spec (patient patient2 : Patient)
    (v v2 : VitalSigns) (hlo : 1 ≤ patient.acuity_level)
    (hhi : patient.acuity_level ≤ 5) (heqp : patient2 = patient)
    (heqv : v2 = v) :
    (fallback_risk_assessment patient v).1
      = min 100 (max 0
          ((if patient.acuity_level = 1 then (10 : ℚ)
            else if patient.acuity_level = 2 then 20
            else if patient.acuity_level = 3 then 40
            else if patient.acuity_level = 4 then 60 else 80)
           + (if ¬(60 ≤ v.heart_rate ∧ v.heart_rate ≤ 100) then 10 else 0)
           + (if ¬(90 ≤ v.systolic_bp ∧ v.systolic_bp ≤ 140) then 10 else 0)
           + (if v.oxygen_saturation < 95 then 20 else 0)
           + (if ¬(36 ≤ v.temperature ∧ v.temperature ≤ 38) then 10 else 0)
           + (if ¬(12 ≤ v.respiratory_rate ∧ v.respiratory_rate ≤ 20)
              then 10 else 0)
           + (if patient.arrival_mode = "Ambulance" then 10 else 0)))
    ∧ ((fallback_risk_assessment patient v).2 = true
        ↔ ((fallback_risk_assessment patient v).1 > 50
            ∨ 4 ≤ patient.acuity_level))
    ∧ fallback_risk_assessment patient2 v2
        = fallback_risk_assessment patient v := by
  have hhr : (v.heart_rate > 100 ∨ v.heart_rate < 60)
      ↔ ¬(60 ≤ v.heart_rate ∧ v.heart_rate ≤ 100) := by
    rw [not_and_or]; simp only [not_le]; exact or_comm
  have hsbp : (v.systolic_bp > 140 ∨ v.systolic_bp < 90)
      ↔ ¬(90 ≤ v.systolic_bp ∧ v.systolic_bp ≤ 140) := by
    rw [not_and_or]; simp only [not_le]; exact or_comm
  have htemp : (v.temperature > 38 ∨ v.temperature < 36)
      ↔ ¬(36 ≤ v.temperature ∧ v.temperature ≤ 38) := by
    rw [not_and_or]; simp only [not_le]; exact or_comm
  have hrr : (v.respiratory_rate > 20 ∨ v.respiratory_rate < 12)
      ↔ ¬(12 ≤ v.respiratory_rate ∧ v.respiratory_rate ≤ 20) := by
    rw [not_and_or]; simp only [not_le]; exact or_comm
  have hcase : patient.acuity_level = 1 ∨ patient.acuity_level = 2
      ∨ patient.acuity_level = 3 ∨ patient.acuity_level = 4
      ∨ patient.acuity_level = 5 := by omega
  have hbase : (if patient.acuity_level = 1 then (10 : ℚ)
      else if patient.acuity_level = 2 then 20
      else if patient.acuity_level = 3 then 40
      else if patient.acuity_level = 4 then 60
      else if patient.acuity_level = 5 then 80 else 50)
      = (if patient.acuity_level = 1 then (10 : ℚ)
        else if patient.acuity_level = 2 then 20
        else if patient.acuity_level = 3 then 40
        else if patient.acuity_level = 4 then 60 else 80) := by
    rcases hcase with h | h | h | h | h <;> simp [h]
  refine ⟨?_, ?_, ?_⟩
  · simp only [fallback_risk_assessment, hhr, hsbp, htemp, hrr, hbase]
  · simp only [fallback_risk_assessment, decide_eq_true_eq, ge_iff_le]
  · rw [heqp, heqv]

/-- Witness for C8: a concrete acuity-3 walk-in patient with heart rate
110 and oxygen saturation 93 (base 40 + 10 + 20 = 70, flag set). -/
theorem fallback_risk_assessment_spec_witness :
    ((1 : ℤ) ≤ 3 ∧ (3 : ℤ) ≤ 5)
    ∧ ((fallback_risk_assessment ⟨"Walk-in", 3⟩ ⟨110, 120, 80, 16, 93, 37⟩).1
        = min 100 (max 0
            ((if (3 : ℤ) = 1 then (10 : ℚ)
              else if (3 : ℤ) = 2 then 20
              else if (3 : ℤ) = 3 then 40
              else if (3 : ℤ) = 4 then 60 else 80)
             + (if ¬((60 : ℚ) ≤ 110 ∧ (110 : ℚ) ≤ 100) then 10 else 0)
             + (if ¬((90 : ℚ) ≤ 120 ∧ (120 : ℚ) ≤ 140) then 10 else 0)
             + (if (93 : ℚ) < 95 then 20 else 0)
             + (if ¬((36 : ℚ) ≤ 37 ∧ (37 : ℚ) ≤ 38) then 10 else 0)
             + (if ¬((12 : ℚ) ≤ 16 ∧ (16 : ℚ) ≤ 20) then 10 else 0)
             + (if "Walk-in" = "Ambulance" then 10 else 0)))
      ∧ ((fallback_risk_assessment ⟨"Walk-in", 3⟩ ⟨110, 120, 80, 16, 93, 37⟩).2
            = true
          ↔ ((fallback_risk_assessment ⟨"Walk-in", 3⟩
                ⟨110, 120, 80, 16, 93, 37⟩).1 > 50 ∨ (4 : ℤ) ≤ 3))
      ∧ fallback_risk_assessment ⟨"Walk-in", 3⟩ ⟨110, 120, 80, 16, 93, 37⟩
          = fallback_risk_assessment ⟨"Walk-in", 3⟩
              ⟨110, 120, 80, 16, 93, 37⟩) :=
  ⟨⟨by norm_num, by norm_num⟩,
    fallback_risk_assessment_spec ⟨"Walk-in", 3⟩ ⟨"Walk-in", 3⟩
      ⟨110, 120, 80, 16, 93, 37⟩ ⟨110, 120, 80, 16, 93, 37⟩
      (by norm_num) (by norm_num) rfl rfl⟩

end Service

namespace ErrH

/-- `_check_circuit_breaker` never changes the error counters. -/
theorem check_cb_error_count (s : HandlerState) (cat : ErrorCategory)
    (k : String) (now : ℚ) (k2 : String) :
    (check_circuit_breaker s cat k now).error_count k2 = s.error_count k2 := by
  unfold check_circuit_breaker
  split_ifs <;> rfl

/-- While the count is below 5, `_check_circuit_breaker` is the identity. -/
theorem check_cb_not_open (s : HandlerState) (cat : ErrorCategory)
    (k : String) (now : ℚ) (h : s.error_count k < 5) :
    check_circuit_breaker s cat k now = s := by
  unfold check_circuit_breaker
  rw [if_neg]
  rintro ⟨-, hc, -⟩
  omega

/-- When the external-service count is at 5 and no entry exists,
`_check_circuit_breaker` opens the breaker. -/
theorem check_cb_opens (s : HandlerState) (cat : ErrorCategory)
    (k : String) (now : ℚ) (hcat : cat = ErrorCategory.external_service)
    (h5 : 5 ≤ s.error_count k) (hnone : s.circuit_breakers k = none) :
    (check_circuit_breaker s cat k now).circuit_breakers k
      = some ⟨now, s.error_count k⟩ := by
  unfold check_circuit_breaker
  rw [if_pos ⟨hcat, h5, hnone⟩]
  simp

/-- `handle_error` updates the counter dict pointwise: the handled key is
incremented, every other key is untouched. -/
theorem handle_error_count (s : HandlerState) (cat : ErrorCategory)
    (k : String) (now : ℚ) (k2 : String) :
    (handle_error s cat k now).error_count k2
      = if k2 = k then s.error_count k + 1 else s.error_count k2 := by
  unfold handle_error
  rw [check_cb_error_count]

/-- While the post-increment count stays below 5, `handle_error` leaves the
circuit-breaker dict untouched. -/
theorem handle_error_breakers_lt (s : HandlerState) (cat : ErrorCategory)
    (k : String) (now : ℚ) (h : s.error_count k + 1 < 5) :
    (handle_error s cat k now).circuit_breakers = s.circuit_breakers := by
  unfold handle_error
  rw [check_cb_not_open _ _ _ _ (by simpa using h)]

/-- When the post-increment count of an external-service key reaches 5 and
no breaker entry exists for it yet, `handle_error` opens the breaker,
stamped with the current time and the count. -/
theorem handle_error_opens (s : HandlerState) (k : String) (now : ℚ)
    (h5 : 4 ≤ s.error_count k) (hnone : s.circuit_breakers k = none) :
    (handle_error s ErrorCategory.external_service k now).circuit_breakers k
      = some ⟨now, s.error_count k + 1⟩ := by
  unfold handle_error
  rw [check_cb_opens _ _ _ _ rfl (by simpa using h5) (by simpa using hnone)]
  simp

/-- An open breaker entry younger than the 300-second cooldown reports
open and leaves the state unchanged. -/
theorem is_circuit_open_open (s : HandlerState) (k : String) (now : ℚ)
    (br : Breaker) (h : s.circuit_breakers k = some br)
    (hle : ¬ 300 < now - br.opened_at) :
    is_circuit_open s k now = (true, s) := by
  unfold is_circuit_open
  rw [h]
  simp [hle]

/-- An open breaker entry older than the cooldown is deleted and reports
closed. -/
theorem is_circuit_open_clears (s : HandlerState) (k : String) (now : ℚ)
    (br : Breaker) (h : s.circuit_breakers k = some br)
    (hgt : 300 < now - br.opened_at) :
    is_circuit_open s k now
      = (false, { s with circuit_breakers := fun k2 =>
          if k2 = k then none else s.circuit_breakers k2 }) := by
  unfold is_circuit_open
  rw [h]
  simp [hgt]

/-- A wrapped call whose circuit is open raises immediately, invoking the
dependency zero times. -/
theorem monitorRun_open (svc : String) (n : ℕ) (b : ℚ) (A : Type)
    (fn : ℕ → Except String A) (s : HandlerState) (now : ℚ)
    (h : (is_circuit_open s ("external_service_" ++ svc) now).1 = true) :
    monitorRun svc n b fn s now
      = ⟨.error .circuitOpen, [], 0,
          (is_circuit_open s ("external_service_" ++ svc) now).2⟩ := by
  unfold monitorRun
  rw [if_pos h]

/-- A wrapped call whose circuit is closed enters the retry loop on the
state left by the breaker check. -/
theorem monitorRun_closed (svc : String) (n : ℕ) (b : ℚ) (A : Type)
    (fn : ℕ → Except String A) (s : HandlerState) (now : ℚ)
    (h : (is_circuit_open s ("external_service_" ++ svc) now).1 = false) :
    monitorRun svc n b fn s now
      = monitorLoop b fn now n 0
          (is_circuit_open s ("external_service_" ++ svc) now).2 := by
  unfold monitorRun
  rw [if_neg (by simp [h])]

/-- With at least one attempt left, the retry loop invokes the dependency
at least once. -/
theorem monitorLoop_calls_pos (b : ℚ) (A : Type) (fn : ℕ → Except String A)
    (now : ℚ) (fuel attempt : ℕ) (s : HandlerState) (h : 0 < fuel) :
    1 ≤ (monitorLoop b fn now fuel attempt s).calls := by
  cases fuel with
  | zero => omega
  | succ f =>
    unfold monitorLoop
    cases fn attempt with
    | ok a => simp
    | error e =>
      simp only
      split_ifs <;> simp

/-- C3: starting from a state with a zero counter and closed breaker for
the dependency key `"external_service_" ++ svc`, five recorded failures
against that key open the breaker (stamped with the fifth failure's time
and count 5); a wrapped call for `svc` within 300 seconds of opening
returns the circuit-open error with the dependency invoked zero times; a
breaker check more than 300 seconds after opening deletes the entry and
the wrapped call then invokes the dependency again. -/
theorem circuit_breaker_spec (svc k : String) (s0 s5 : HandlerState)
    (t1 t2 t3 t4 t5 now1 now2 : ℚ) (A : Type) (fn : ℕ → Except String A)
    (n : ℕ) (b : ℚ) (hn : 0 < n)
    (hk : k = "external_service_" ++ svc)
    (hcount : s0.error_count k = 0)
    (hbrk : s0.circuit_breakers k = none)
    (hs5 : s5 = handle_error (handle_error (handle_error (handle_error
      (handle_error s0 .external_service k t1) .external_service k t2)
      .external_service k t3) .external_service k t4)
      .external_service k t5)
    (hwithin : now1 - t5 ≤ 300) (hafter : 300 < now2 - t5) :
    s5.circuit_breakers k = some ⟨t5, 5⟩
    ∧ (monitorRun svc n b fn s5 now1).result = .error .circuitOpen
    ∧ (monitorRun svc n b fn s5 now1).calls = 0
    ∧ (is_circuit_open s5 k now2).1 = false
    ∧ (is_circuit_open s5 k now2).2.circuit_breakers k = none
    ∧ 1 ≤ (monitorRun svc n b fn s5 now2).calls := by
  set e1 := handle_error s0 .external_service k t1 with he1
  set e2 := handle_error e1 .external_service k t2 with he2
  set e3 := handle_error e2 .external_service k t3 with he3
  set e4 := handle_error e3 .external_service k t4 with he4
  have hc1 : e1.error_count k = 1 := by
    rw [he1, handle_error_count, if_pos rfl, hcount]
  have hc2 : e2.error_count k = 2 := by
    rw [he2, handle_error_count, if_pos rfl, hc1]
  have hc3 : e3.error_count k = 3 := by
    rw [he3, handle_error_count, if_pos rfl, hc2]
  have hc4 : e4.error_count k = 4 := by
    rw [he4, handle_error_count, if_pos rfl, hc3]
  have hb1 : e1.circuit_breakers k = none := by
    rw [he1, handle_error_breakers_lt _ _ _ _ (by omega), hbrk]
  have hb2 : e2.circuit_breakers k = none := by
    rw [he2, handle_error_breakers_lt _ _ _ _ (by omega), hb1]
  have hb3 : e3.circuit_breakers k = none := by
    rw [he3, handle_error_breakers_lt _ _ _ _ (by omega), hb2]
  have hb4 : e4.circuit_breakers k = none := by
    rw [he4, handle_error_breakers_lt _ _ _ _ (by omega), hb3]
  have hopen : s5.circuit_breakers k = some ⟨t5, 5⟩ := by
    rw [hs5]
    have := handle_error_opens e4 k t5 (by omega) hb4
    rw [this, hc4]
  have hoc1 : is_circuit_open s5 k now1 = (true, s5) :=
    is_circuit_open_open s5 k now1 ⟨t5, 5⟩ hopen (by simp; linarith)
  have hoc2 : is_circuit_open s5 k now2
      = (false, { s5 with circuit_breakers := fun k2 =>
          if k2 = k then none else s5.circuit_breakers k2 }) :=
    is_circuit_open_clears s5 k now2 ⟨t5, 5⟩ hopen (by simpa using hafter)
  have hrun1 : monitorRun svc n b fn s5 now1
      = ⟨.error .circuitOpen, [], 0,
          (is_circuit_open s5 ("external_service_" ++ svc) now1).2⟩ :=
    monitorRun_open svc n b A fn s5 now1 (by rw [← hk, hoc1])
  refine ⟨hopen, by rw [hrun1], by rw [hrun1], by rw [hoc2],
    by rw [hoc2]; simp, ?_⟩
  rw [monitorRun_closed svc n b A fn s5 now2 (by rw [← hk, hoc2])]
  exact monitorLoop_calls_pos b A fn now2 n 0 _ hn

/-- Witness for C3 at a concrete run: five failures at times 1…5 on the
key of service `"m"`, a blocked call at time 100 and a clearing call at
time 400. -/
theorem circuit_breaker_spec_witness :
    (0 : ℕ) < 2
    ∧ "external_service_m" = "external_service_" ++ "m"
    ∧ initState.error_count "external_service_m" = 0
    ∧ initState.circuit_breakers "external_service_m" = none
    ∧ (100 : ℚ) - 5 ≤ 300 ∧ (300 : ℚ) < 400 - 5
    ∧ ((handle_error (handle_error (handle_error (handle_error
          (handle_error initState .external_service "external_service_m" 1)
          .external_service "external_service_m" 2)
          .external_service "external_service_m" 3)
          .external_service "external_service_m" 4)
          .external_service "external_service_m" 5).circuit_breakers
            "external_service_m" = some ⟨5, 5⟩
      ∧ (monitorRun "m" 2 (3/2) (fun _ => Except.ok (0 : ℕ))
          (handle_error (handle_error (handle_error (handle_error
            (handle_error initState .external_service "external_service_m" 1)
            .external_service "external_service_m" 2)
            .external_service "external_service_m" 3)
            .external_service "external_service_m" 4)
            .external_service "external_service_m" 5) 100).result
          = .error .circuitOpen
      ∧ (monitorRun "m" 2 (3/2) (fun _ => Except.ok (0 : ℕ))
          (handle_error (handle_error (handle_error (handle_error
            (handle_error initState .external_service "external_service_m" 1)
            .external_service "external_service_m" 2)
            .external_service "external_service_m" 3)
            .external_service "external_service_m" 4)
            .external_service "external_service_m" 5) 100).calls = 0
      ∧ (is_circuit_open (handle_error (handle_error (handle_error
          (handle_error (handle_error initState .external_service
            "external_service_m" 1)
            .external_service "external_service_m" 2)
            .external_service "external_service_m" 3)
            .external_service "external_service_m" 4)
            .external_service "external_service_m" 5)
          "external_service_m" 400).1 = false
      ∧ ((is_circuit_open (handle_error (handle_error (handle_error
          (handle_error (handle_error initState .external_service
            "external_service_m" 1)
            .external_service "external_service_m" 2)
            .external_service "external_service_m" 3)
            .external_service "external_service_m" 4)
            .external_service "external_service_m" 5)
          "external_service_m" 400).2.circuit_breakers
            "external_service_m" = none
      ∧ 1 ≤ (monitorRun "m" 2 (3/2) (fun _ => Except.ok (0 : ℕ))
          (handle_error (handle_error (handle_error (handle_error
            (handle_error initState .external_service "external_service_m" 1)
            .external_service "external_service_m" 2)
            .external_service "external_service_m" 3)
            .external_service "external_service_m" 4)
            .external_service "external_service_m" 5) 400).calls)) :=
  ⟨by norm_num, rfl, rfl, rfl, by norm_num, by norm_num,
    by
      have h := circuit_breaker_spec "m" "external_service_m" initState
        (handle_error (handle_error (handle_error (handle_error
          (handle_error initState .external_service "external_service_m" 1)
          .external_service "external_service_m" 2)
          .external_service "external_service_m" 3)
          .external_service "external_service_m" 4)
          .external_service "external_service_m" 5)
        1 2 3 4 5 100 400 ℕ (fun _ => Except.ok (0 : ℕ)) 2 (3/2)
        (by norm_num) rfl rfl rfl rfl (by norm_num) (by norm_num)
      exact ⟨h.1, h.2.1, h.2.2.1, h.2.2.2.1, h.2.2.2.2.1, h.2.2.2.2.2⟩⟩

/-- C9: a call wrapped with `retry_attempts=3, backoff_factor=1.5` whose
dependency fails on attempts 0 and 1 and succeeds on attempt 2 returns the
third attempt's result, slept `1.5^0 = 1` then `1.5^1 = 1.5` seconds
between the attempts, and invoked the dependency exactly three times; and
in general an attempt that succeeds makes the retry loop return its result
at once, with no further attempts, sleeps, or state changes. -/
theorem retry_backoff_spec (A : Type) (a a2 : A) (e1 e2 : String)
    (fn g : ℕ → Except String A) (svc : String) (s s2 : HandlerState)
    (now now2 b2 : ℚ) (j fuel : ℕ)
    (hclosed : (is_circuit_open s ("external_service_" ++ svc) now).1 = false)
    (h0 : fn 0 = .error e1) (h1 : fn 1 = .error e2) (h2 : fn 2 = .ok a)
    (hg : g j = .ok a2) :
    ((monitorRun svc 3 (3/2) fn s now).result = .ok a
      ∧ (monitorRun svc 3 (3/2) fn s now).sleeps = [1, 3/2]
      ∧ (monitorRun svc 3 (3/2) fn s now).calls = 3)
    ∧ monitorLoop b2 g now2 (fuel + 1) j s2
        = ⟨.ok a2, [], 1, s2⟩ := by
  constructor
  · rw [monitorRun_closed svc 3 (3/2) A fn s now hclosed]
    refine ⟨?_, ?_, ?_⟩ <;> simp [monitorLoop, h0, h1, h2]
  · simp [monitorLoop, hg]

/-- Witness for C9: a concrete dependency that fails twice then returns 7,
and an immediately successful dependency returning 9. -/
theorem retry_backoff_spec_witness :
    ((is_circuit_open initState ("external_service_" ++ "m") 0).1 = false
      ∧ (fun i => if i = 0 then Except.error "E1"
          else if i = 1 then Except.error "E2" else Except.ok (7 : ℕ)) 0
            = Except.error "E1"
      ∧ (fun i => if i = 0 then Except.error "E1"
          else if i = 1 then Except.error "E2" else Except.ok (7 : ℕ)) 1
            = Except.error "E2"
      ∧ (fun i => if i = 0 then Except.error "E1"
          else if i = 1 then Except.error "E2" else Except.ok (7 : ℕ)) 2
            = Except.ok 7
      ∧ (fun _ => (Except.ok 9 : Except String ℕ)) 0 = Except.ok 9)
    ∧ (((monitorRun "m" 3 (3/2)
          (fun i => if i = 0 then Except.error "E1"
            else if i = 1 then Except.error "E2" else Except.ok (7 : ℕ))
          initState 0).result = .ok 7
      ∧ (monitorRun "m" 3 (3/2)
          (fun i => if i = 0 then Except.error "E1"
            else if i = 1 then Except.error "E2" else Except.ok (7 : ℕ))
          initState 0).sleeps = [1, 3/2]
      ∧ (monitorRun "m" 3 (3/2)
          (fun i => if i = 0 then Except.error "E1"
            else if i = 1 then Except.error "E2" else Except.ok (7 : ℕ))
          initState 0).calls = 3)
    ∧ monitorLoop 2 (fun _ => (Except.ok 9 : Except String ℕ)) 0 (0 + 1) 0
        initState = ⟨.ok 9, [], 1, initState⟩) :=
  ⟨⟨rfl, rfl, rfl, rfl, rfl⟩,
    retry_backoff_spec ℕ 7 9 "E1" "E2"
      (fun i => if i = 0 then Except.error "E1"
        else if i = 1 then Except.error "E2" else Except.ok (7 : ℕ))
      (fun _ => (Except.ok 9 : Except String ℕ)) "m" initState initState
      0 0 2 0 0
      rfl rfl rfl rfl rfl⟩

/-- `handle_error` never decreases any key's counter. -/
theorem handle_error_count_le (s : HandlerState) (cat : ErrorCategory)
    (k : String) (now : ℚ) (k2 : String) :
    s.error_count k2 ≤ (handle_error s cat k now).error_count k2 := by
  rw [handle_error_count]
  split_ifs with hh
  · subst hh
    omega
  · exact le_rfl

/-- `is_circuit_open` never changes any key's counter. -/
theorem is_circuit_open_count (s : HandlerState) (k : String) (now : ℚ)
    (k2 : String) :
    (is_circuit_open s k now).2.error_count k2 = s.error_count k2 := by
  unfold is_circuit_open
  cases hcb : s.circuit_breakers k
  · rfl
  · dsimp only
    split_ifs <;> rfl

/-- The retry loop never decreases any key's counter. -/
theorem monitorLoop_count_mono (b : ℚ) (A : Type)
    (fn : ℕ → Except String A) (now : ℚ) :
    ∀ (fuel attempt : ℕ) (s : HandlerState) (k2 : String),
      s.error_count k2
        ≤ (monitorLoop b fn now fuel attempt s).finalState.error_count k2 := by
  intro fuel
  induction fuel with
  | zero => intro attempt s k2; simp [monitorLoop]
  | succ f ih =>
    intro attempt s k2
    cases hfn : fn attempt with
    | ok a => simp [monitorLoop, hfn]
    | error e =>
      simp only [monitorLoop, hfn]
      split_ifs with hf
      · exact handle_error_count_le s _ _ now k2
      · exact le_trans (handle_error_count_le s _ _ now k2) (ih _ _ k2)

/-- A whole wrapped call — successful or not — never decreases any key's
counter. -/
theorem monitorRun_count_mono (svc : String) (n : ℕ) (b : ℚ) (A : Type)
    (fn : ℕ → Except String A) (s : HandlerState) (now : ℚ) (k2 : String) :
    s.error_count k2
      ≤ (monitorRun svc n b fn s now).finalState.error_count k2 := by
  simp only [monitorRun]
  split_ifs with h
  · exact le_of_eq
      (is_circuit_open_count s ("external_service_" ++ svc) now k2).symm
  · calc s.error_count k2
        = (is_circuit_open s ("external_service_" ++ svc) now).2.error_count
            k2 :=
          (is_circuit_open_count s ("external_service_" ++ svc) now k2).symm
      _ ≤ _ := monitorLoop_count_mono b A fn now n 0 _ k2

/-- C10: the global handler's per-key failure counter is monotonically
non-decreasing: a handled failure increments exactly its own key's counter,
breaker checks and whole wrapped calls (including successful dependency
calls) never reset or decrement any counter, and a key whose cumulative
count stands at 4 with no open breaker reaches the opening threshold 5 on
its next handled external-service failure — the threshold is cumulative
over the handler's lifetime, not limited to consecutive failures. -/
theorem error_count_monotonic_spec (s s4 : HandlerState)
    (cat : ErrorCategory) (k k2 k4 svc : String) (now now4 : ℚ) (n : ℕ)
    (b : ℚ) (A : Type) (fn : ℕ → Except String A)
    (h4 : s4.error_count k4 = 4) (hnone4 : s4.circuit_breakers k4 = none) :
    (handle_error s cat k now).error_count k = s.error_count k + 1
    ∧ s.error_count k2 ≤ (handle_error s cat k now).error_count k2
    ∧ (is_circuit_open s k now).2.error_count k2 = s.error_count k2
    ∧ s.error_count k2
        ≤ (monitorRun svc n b fn s now).finalState.error_count k2
    ∧ (handle_error s4 .external_service k4 now4).circuit_breakers k4
        = some ⟨now4, 5⟩ := by
  refine ⟨?_, handle_error_count_le s cat k now k2,
    is_circuit_open_count s k now k2,
    monitorRun_count_mono svc n b A fn s now k2, ?_⟩
  · rw [handle_error_count]
    simp
  · rw [handle_error_opens s4 k4 now4 (by omega) hnone4, h4]

/-- Witness for C10: the empty initial state, a database-category failure
on key "x", a wrapped successful call for service "m", and the
four-failures state one failure short of opening its breaker. -/
theorem error_count_monotonic_spec_witness :
    (fourFailuresState.error_count "external_service_TimeoutError" = 4
      ∧ fourFailuresState.circuit_breakers "external_service_TimeoutError"
          = none)
    ∧ ((handle_error initState .database "x" 0).error_count "x"
        = initState.error_count "x" + 1
      ∧ initState.error_count "y"
          ≤ (handle_error initState .database "x" 0).error_count "y"
      ∧ (is_circuit_open initState "x" 0).2.error_count "y"
          = initState.error_count "y"
      ∧ initState.error_count "y"
          ≤ (monitorRun "m" 1 1 (fun _ => Except.ok (0 : ℕ)) initState
              0).finalState.error_count "y"
      ∧ (handle_error fourFailuresState .external_service
          "external_service_TimeoutError" 7).circuit_breakers
            "external_service_TimeoutError" = some ⟨7, 5⟩) :=
  ⟨⟨rfl, rfl⟩,
    error_count_monotonic_spec initState fourFailuresState .database
      "x" "y" "external_service_TimeoutError" "m" 0 7 1 1 ℕ
      (fun _ => Except.ok (0 : ℕ)) rfl rfl⟩

end ErrH

namespace Service

/-- C1 counterexample: for the invalid input heart_rate = 250 (outside the
30–200 medical range) the assessment call does not return a validation
error — `_perform_risk_assessment` catches the `MLModelValidationError`,
runs the fallback scorer, and creates a `RiskAssessment` (score 30,
category "LOW", flag false, error_message recording the validation
failure). -/
theorem validation_failure_still_records :
    (validate_input ⟨"Walk-in", 2⟩ ⟨250, 120, 80, 16, 98, 37⟩).isEmpty
        = false
    ∧ (perform_risk_assessment_call ErrH.initState 0 ⟨"Walk-in", 2⟩
        ⟨250, 120, 80, 16, 98, 37⟩ (.ok (10, "LOW", 5)) true).result
        = .ok ⟨30, "LOW", false, 0, some .mlValidation⟩ := by
  have hwa : ¬ ("Walk-in" = "Ambulance") := by decide
  constructor
  · norm_num [validate_input, validate_model_inputs]
  · norm_num [perform_risk_assessment_call, ErrH.monitorRun,
      ErrH.is_circuit_open, ErrH.initState, ErrH.monitorLoop,
      perform_risk_assessment_body, validate_input, validate_model_inputs,
      fallback_risk_assessment, category_from_flag, hwa]

/-- C1 (amended): an assessment call whose caller input fails validation
still produces a `RiskAssessment` — the validation exception is caught
inside `_perform_risk_assessment`, the fallback scorer supplies score and
flag, and the record is created with `error_message` set to the validation
failure (assuming the wrapper's breaker is closed and the store
succeeds). -/
theorem validation_failure_records_fallback (p : Patient) (v : VitalSigns)
    (ml : MLOutcome) (s : ErrH.HandlerState) (now : ℚ)
    (hinvalid : (validate_input p v).isEmpty = false)
    (hclosed : (ErrH.is_circuit_open s
      ("external_service_" ++ "ml_risk_model") now).1 = false) :
    (perform_risk_assessment_call s now p v ml true).result
      = .ok ⟨(fallback_risk_assessment p v).1,
          category_from_flag (fallback_risk_assessment p v).1
            (fallback_risk_assessment p v).2,
          (fallback_risk_assessment p v).2, 0, some .mlValidation⟩ := by
  unfold perform_risk_assessment_call
  rw [ErrH.monitorRun_closed _ _ _ _ _ _ _ hclosed]
  have hbody : perform_risk_assessment_body p v ml true
      = .ok ⟨(fallback_risk_assessment p v).1,
          category_from_flag (fallback_risk_assessment p v).1
            (fallback_risk_assessment p v).2,
          (fallback_risk_assessment p v).2, 0, some .mlValidation⟩ := by
    simp only [perform_risk_assessment_body, hinvalid]
    rfl
  simp [ErrH.monitorLoop, hbody]

/-- Witness for the amended C1 at the concrete invalid input
heart_rate = 250. -/
theorem validation_failure_records_fallback_witness :
    ((validate_input ⟨"Walk-in", 2⟩ ⟨250, 120, 80, 16, 98, 37⟩).isEmpty
        = false
      ∧ (ErrH.is_circuit_open ErrH.initState
          ("external_service_" ++ "ml_risk_model") 0).1 = false)
    ∧ (perform_risk_assessment_call ErrH.initState 0 ⟨"Walk-in", 2⟩
        ⟨250, 120, 80, 16, 98, 37⟩ (.ok (10, "LOW", 5)) true).result
        = .ok ⟨(fallback_risk_assessment ⟨"Walk-in", 2⟩
              ⟨250, 120, 80, 16, 98, 37⟩).1,
            category_from_flag
              (fallback_risk_assessment ⟨"Walk-in", 2⟩
                ⟨250, 120, 80, 16, 98, 37⟩).1
              (fallback_risk_assessment ⟨"Walk-in", 2⟩
                ⟨250, 120, 80, 16, 98, 37⟩).2,
            (fallback_risk_assessment ⟨"Walk-in", 2⟩
              ⟨250, 120, 80, 16, 98, 37⟩).2, 0, some .mlValidation⟩ :=
  ⟨⟨by norm_num [validate_input, validate_model_inputs], rfl⟩,
    validation_failure_records_fallback ⟨"Walk-in", 2⟩
      ⟨250, 120, 80, 16, 98, 37⟩ (.ok (10, "LOW", 5)) ErrH.initState 0
      (by norm_num [validate_input, validate_model_inputs]) rfl⟩

/-- C2 counterexample: with the wrapper's circuit breaker open (opened at
time 0, called at time 100, within the 300 s cooldown) and a perfectly
valid input, the assessment call raises the circuit-open error to the
caller — the wrapped body is invoked zero times, so no fallback scoring
happens and no `RiskAssessment` is produced for this dependency failure
mode. -/
theorem circuit_open_failure_raises :
    (validate_input ⟨"Walk-in", 2⟩ ⟨80, 120, 80, 16, 98, 37⟩).isEmpty = true
    ∧ (perform_risk_assessment_call openState 100 ⟨"Walk-in", 2⟩
        ⟨80, 120, 80, 16, 98, 37⟩ (.error .mlTimeout) true).result
        = .error .circuitOpen
    ∧ (perform_risk_assessment_call openState 100 ⟨"Walk-in", 2⟩
        ⟨80, 120, 80, 16, 98, 37⟩ (.error .mlTimeout) true).calls = 0 := by
  have hk : "external_service_" ++ "ml_risk_model"
      = "external_service_ml_risk_model" := by decide
  refine ⟨by norm_num [validate_input, validate_model_inputs], ?_, ?_⟩ <;>
    norm_num [perform_risk_assessment_call, ErrH.monitorRun,
      ErrH.is_circuit_open, openState, hk]

/-- C2 (amended): every failure raised by the ML client during scoring —
timeout, invalid model response, prediction error, or any unexpected
exception — still yields a `RiskAssessment` built from the fallback scorer
with `error_message` set, and the call does not raise (breaker closed,
store succeeding); but when the wrapper's own circuit breaker is open the
call raises the circuit-open error without invoking the body, producing no
assessment. -/
theorem dependency_failure_returns_fallback (p : Patient) (v : VitalSigns)
    (k : MLExcKind) (s s2 : ErrH.HandlerState) (now now2 : ℚ)
    (hvalid : (validate_input p v).isEmpty = true)
    (hclosed : (ErrH.is_circuit_open s
      ("external_service_" ++ "ml_risk_model") now).1 = false)
    (hopen : (ErrH.is_circuit_open s2
      ("external_service_" ++ "ml_risk_model") now2).1 = true) :
    ((perform_risk_assessment_call s now p v (.error k) true).result
      = .ok ⟨(fallback_risk_assessment p v).1,
          category_from_flag (fallback_risk_assessment p v).1
            (fallback_risk_assessment p v).2,
          (fallback_risk_assessment p v).2, 0, some k⟩)
    ∧ (perform_risk_assessment_call s2 now2 p v (.error k) true).result
        = .error .circuitOpen
    ∧ (perform_risk_assessment_call s2 now2 p v (.error k) true).calls
        = 0 := by
  refine ⟨?_, ?_, ?_⟩
  · unfold perform_risk_assessment_call
    rw [ErrH.monitorRun_closed _ _ _ _ _ _ _ hclosed]
    have hbody : perform_risk_assessment_body p v (.error k) true
        = .ok ⟨(fallback_risk_assessment p v).1,
            category_from_flag (fallback_risk_assessment p v).1
              (fallback_risk_assessment p v).2,
            (fallback_risk_assessment p v).2, 0, some k⟩ := by
      simp only [perform_risk_assessment_body, hvalid]
      rfl
    simp [ErrH.monitorLoop, hbody]
  · unfold perform_risk_assessment_call
    rw [ErrH.monitorRun_open _ _ _ _ _ _ _ hopen]
  · unfold perform_risk_assessment_call
    rw [ErrH.monitorRun_open _ _ _ _ _ _ _ hopen]

/-- Witness for the amended C2: a timeout from the ML client against the
fresh handler state, and the open-breaker state at time 100. -/
theorem dependency_failure_returns_fallback_witness :
    ((validate_input ⟨"Walk-in", 2⟩ ⟨80, 120, 80, 16, 98, 37⟩).isEmpty
        = true
      ∧ (ErrH.is_circuit_open ErrH.initState
          ("external_service_" ++ "ml_risk_model") 0).1 = false
      ∧ (ErrH.is_circuit_open openState
          ("external_service_" ++ "ml_risk_model") 100).1 = true)
    ∧ (((perform_risk_assessment_call ErrH.initState 0 ⟨"Walk-in", 2⟩
          ⟨80, 120, 80, 16, 98, 37⟩ (.error .mlTimeout) true).result
        = .ok ⟨(fallback_risk_assessment ⟨"Walk-in", 2⟩
              ⟨80, 120, 80, 16, 98, 37⟩).1,
            category_from_flag
              (fallback_risk_assessment ⟨"Walk-in", 2⟩
                ⟨80, 120, 80, 16, 98, 37⟩).1
              (fallback_risk_assessment ⟨"Walk-in", 2⟩
                ⟨80, 120, 80, 16, 98, 37⟩).2,
            (fallback_risk_assessment ⟨"Walk-in", 2⟩
              ⟨80, 120, 80, 16, 98, 37⟩).2, 0, some .mlTimeout⟩)
      ∧ (perform_risk_assessment_call openState 100 ⟨"Walk-in", 2⟩
          ⟨80, 120, 80, 16, 98, 37⟩ (.error .mlTimeout) true).result
          = .error .circuitOpen
      ∧ (perform_risk_assessment_call openState 100 ⟨"Walk-in", 2⟩
          ⟨80, 120, 80, 16, 98, 37⟩ (.error .mlTimeout) true).calls = 0) :=
  ⟨⟨by norm_num [validate_input, validate_model_inputs], rfl,
      by
        have hk : "external_service_" ++ "ml_risk_model"
            = "external_service_ml_risk_model" := by decide
        norm_num [ErrH.is_circuit_open, openState, hk]⟩,
    dependency_failure_returns_fallback ⟨"Walk-in", 2⟩
      ⟨80, 120, 80, 16, 98, 37⟩ .mlTimeout ErrH.initState openState 0 100
      (by norm_num [validate_input, validate_model_inputs]) rfl
      (by
        have hk : "external_service_" ++ "ml_risk_model"
            = "external_service_ml_risk_model" := by decide
        norm_num [ErrH.is_circuit_open, openState, hk])⟩

end Service

end RiskSpec
